import Mathlib

/-!
Verification development for the QtImGui binding layer
(src/ImGuiRenderer.cpp, src/ImGuiRenderer.h).

The rasterizer is embedded as a function that, given the renderer fields,
the display metrics, the draw data and the OpenGL state at entry, emits the
list of OpenGL calls the C++ code would issue; a small interpreter `exec`
gives those calls their effect on an explicit `GLState` record.  Machine
floats are modelled by exact rationals, C integer truncation by `qtrunc`.
The input-translation entry points are embedded as functions emitting the
list of ImGui API calls they perform, in order.
-/

namespace QtImGui

/-- Truncation toward zero, the semantics of the C cast `(int)x` applied to
an exact value: numerator divided by denominator with the
truncating (T-)division on integers. -/
def qtrunc (q : ℚ) : ℤ := Int.tdiv q.num q.den

/-! OpenGL enumerant values used by the source. -/

def GL_TEXTURE0 : ℕ := 0x84C0
def GL_FUNC_ADD : ℕ := 0x8006
def GL_SRC_ALPHA : ℕ := 0x0302
def GL_ONE_MINUS_SRC_ALPHA : ℕ := 0x0303
def GL_ONE : ℕ := 1
def GL_FLOAT : ℕ := 0x1406
def GL_UNSIGNED_BYTE : ℕ := 0x1401
def GL_UNSIGNED_SHORT : ℕ := 0x1403
def GL_TRIANGLES : ℕ := 0x0004

/-- The capabilities the rasterizer enables or disables. -/
inductive Capability
  | blend
  | cullFace
  | depthTest
  | stencilTest
  | scissorTest
deriving DecidableEq, Repr

/-- The two buffer-binding targets the rasterizer uses. -/
inductive BufferTarget
  | arrayBuffer
  | elementArrayBuffer
deriving DecidableEq, Repr

/-- One OpenGL call, as emitted by the rasterizer.  A user draw callback is
referenced by an opaque tag `k`; its state effect is supplied to the
interpreter as an environment. -/
inductive GLCall
  | enable (cap : Capability)
  | disable (cap : Capability)
  | blendEquation (mode : ℕ)
  | blendEquationSeparate (rgb alpha : ℕ)
  | blendFuncSeparate (srcRgb dstRgb srcAlpha dstAlpha : ℕ)
  | viewport (x y w h : ℤ)
  | scissor (x y w h : ℤ)
  | useProgram (p : ℕ)
  | uniform1i (loc : ℤ) (v : ℤ)
  | uniformMatrix4fv (loc : ℤ) (m : List ℚ)
  | bindVertexArray (v : ℕ)
  | bindBuffer (target : BufferTarget) (b : ℕ)
  | bindTexture (t : ℕ)
  | activeTexture (unit : ℕ)
  | enableVertexAttribArray (loc : ℤ)
  | vertexAttribPointer (loc : ℤ) (size : ℕ) (ty : ℕ) (normalized : Bool)
      (stride offset : ℕ)
  | genVertexArray (name : ℕ)
  | deleteVertexArray (name : ℕ)
  | bufferData (target : BufferTarget) (size : ℕ)
  | bufferSubData (target : BufferTarget) (offset size : ℕ)
  | drawElements (mode count ty : ℕ) (indexOffset : ℕ)
  | userCallback (k : ℕ)
deriving DecidableEq, Repr

/-- The OpenGL context state the rasterizer reads, mutates and restores:
exactly the values captured by the backup block of renderDrawList, plus the
stencil-test flag (mutated but not captured) and a fresh-name counter for
glGenVertexArrays. -/
structure GLState where
  activeTexture : ℕ
  currentProgram : ℕ
  textureBinding2D : ℕ
  arrayBufferBinding : ℕ
  elementArrayBufferBinding : ℕ
  vertexArrayBinding : ℕ
  blendSrcRgb : ℕ
  blendDstRgb : ℕ
  blendSrcAlpha : ℕ
  blendDstAlpha : ℕ
  blendEquationRgb : ℕ
  blendEquationAlpha : ℕ
  viewport : ℤ × ℤ × ℤ × ℤ
  scissorBox : ℤ × ℤ × ℤ × ℤ
  blendEnabled : Bool
  cullFaceEnabled : Bool
  depthTestEnabled : Bool
  stencilTestEnabled : Bool
  scissorTestEnabled : Bool
  nextFreeName : ℕ
deriving DecidableEq, Repr

/-- Set one enable/disable capability flag. -/
def setCap (s : GLState) : Capability → Bool → GLState
  | Capability.blend, b => { s with blendEnabled := b }
  | Capability.cullFace, b => { s with cullFaceEnabled := b }
  | Capability.depthTest, b => { s with depthTestEnabled := b }
  | Capability.stencilTest, b => { s with stencilTestEnabled := b }
  | Capability.scissorTest, b => { s with scissorTestEnabled := b }

/-- Effect of one OpenGL call on the context state.  `env` interprets user
draw callbacks (which may mutate the state arbitrarily). -/
def exec (env : ℕ → GLState → GLState) (s : GLState) : GLCall → GLState
  | GLCall.enable cap => setCap s cap true
  | GLCall.disable cap => setCap s cap false
  | GLCall.blendEquation m =>
      { s with blendEquationRgb := m, blendEquationAlpha := m }
  | GLCall.blendEquationSeparate rgb alpha =>
      { s with blendEquationRgb := rgb, blendEquationAlpha := alpha }
  | GLCall.blendFuncSeparate a b c d =>
      { s with blendSrcRgb := a, blendDstRgb := b,
               blendSrcAlpha := c, blendDstAlpha := d }
  | GLCall.viewport x y w h => { s with viewport := (x, y, w, h) }
  | GLCall.scissor x y w h => { s with scissorBox := (x, y, w, h) }
  | GLCall.useProgram p => { s with currentProgram := p }
  | GLCall.uniform1i _ _ => s
  | GLCall.uniformMatrix4fv _ _ => s
  | GLCall.bindVertexArray v => { s with vertexArrayBinding := v }
  | GLCall.bindBuffer BufferTarget.arrayBuffer b =>
      { s with arrayBufferBinding := b }
  | GLCall.bindBuffer BufferTarget.elementArrayBuffer b =>
      { s with elementArrayBufferBinding := b }
  | GLCall.bindTexture t => { s with textureBinding2D := t }
  | GLCall.activeTexture u => { s with activeTexture := u }
  | GLCall.enableVertexAttribArray _ => s
  | GLCall.vertexAttribPointer _ _ _ _ _ _ => s
  | GLCall.genVertexArray _ => { s with nextFreeName := s.nextFreeName + 1 }
  | GLCall.deleteVertexArray n =>
      if s.vertexArrayBinding = n then { s with vertexArrayBinding := 0 }
      else s
  | GLCall.bufferData _ _ => s
  | GLCall.bufferSubData _ _ _ => s
  | GLCall.drawElements _ _ _ _ => s
  | GLCall.userCallback k => env k s

/-- Run a list of OpenGL calls from a starting state. -/
def execList (env : ℕ → GLState → GLState) (calls : List GLCall)
    (s : GLState) : GLState :=
  calls.foldl (exec env) s

/-! The draw-data model, mirroring the ImDrawData / ImDrawList / ImDrawCmd
structures consumed by renderDrawList. -/

/-- A 2-component vector of the immediate-mode library. -/
structure ImVec2 where
  x : ℚ
  y : ℚ
deriving DecidableEq, Repr

/-- A clip rectangle: (x, y) is the top-left corner, (z, w) the
bottom-right corner. -/
structure ImVec4 where
  x : ℚ
  y : ℚ
  z : ℚ
  w : ℚ
deriving DecidableEq, Repr

/-- A user callback on a draw command: either the reset-render-state
sentinel or an ordinary callback referenced by an opaque tag. -/
inductive DrawCallbackKind
  | resetRenderState
  | custom (k : ℕ)
deriving DecidableEq, Repr

/-- One draw command of a command list (ImDrawCmd). -/
structure ImDrawCmd where
  elemCount : ℕ
  clipRect : ImVec4
  textureId : ℕ
  idxOffset : ℕ
  userCallback : Option DrawCallbackKind
deriving DecidableEq, Repr

/-- One command-list segment (ImDrawList): its vertex and index buffer
sizes in elements, and its ordered draw commands. -/
structure ImDrawList where
  vtxCount : ℕ
  idxCount : ℕ
  cmdBuffer : List ImDrawCmd
deriving DecidableEq, Repr

/-- The per-frame display list (ImDrawData). -/
structure ImDrawData where
  displayPos : ImVec2
  displaySize : ImVec2
  framebufferScale : ImVec2
  cmdLists : List ImDrawList
deriving DecidableEq, Repr

/-- The two ImGuiIO fields renderDrawList reads. -/
structure IOView where
  displaySize : ImVec2
  displayFramebufferScale : ImVec2
deriving DecidableEq, Repr

/-- The renderer fields used by the rasterizer (a subset of the
ImGuiRenderer class members). -/
structure ImGuiRenderer where
  mShaderHandle : ℕ
  mVboHandle : ℕ
  mElementsHandle : ℕ
  mAttribLocationTex : ℤ
  mAttribLocationProjMtx : ℤ
  mAttribLocationVtxPos : ℤ
  mAttribLocationVtxUV : ℤ
  mAttribLocationVtxColor : ℤ
  mVertexBufferSize : ℕ
  mIndexBufferSize : ℕ
deriving DecidableEq, Repr

/-- sizeof(ImDrawVert): two 2D float vectors plus a packed 4-byte color. -/
def sizeofImDrawVert : ℕ := 20

/-- sizeof(ImDrawIdx): the default 16-bit index type. -/
def sizeofImDrawIdx : ℕ := 2

/-- Byte size of the vertex data of one segment
(VtxBuffer.Size * sizeof(ImDrawVert)). -/
def vtxBufferSizeOf (l : ImDrawList) : ℕ := l.vtxCount * sizeofImDrawVert

/-- Byte size of the index data of one segment
(IdxBuffer.Size * sizeof(ImDrawIdx)). -/
def idxBufferSizeOf (l : ImDrawList) : ℕ := l.idxCount * sizeofImDrawIdx

/-- ImDrawData::ScaleClipRects from the immediate-mode library: multiply
every clip rectangle of every command by the framebuffer scale. -/
def scaleClipRects (dd : ImDrawData) (s : ImVec2) : ImDrawData :=
  { dd with
    cmdLists := dd.cmdLists.map (fun l =>
      { l with
        cmdBuffer := l.cmdBuffer.map (fun c =>
          { c with
            clipRect := ImVec4.mk (c.clipRect.x * s.x) (c.clipRect.y * s.y)
              (c.clipRect.z * s.x) (c.clipRect.w * s.y) }) }) }

/-- The orthographic projection matrix of setupRenderStates, in row-major
order. -/
def orthoProjection (dd : ImDrawData) : List ℚ :=
  let L := dd.displayPos.x
  let R := dd.displayPos.x + dd.displaySize.x
  let T := dd.displayPos.y
  let B := dd.displayPos.y + dd.displaySize.y
  [2 / (R - L), 0, 0, 0,
   0, 2 / (T - B), 0, 0,
   0, 0, -1, 0,
   (R + L) / (L - R), (T + B) / (B - T), 0, 1]

/-- ImGuiRenderer::setupRenderStates: the blend / cull / depth / stencil /
scissor configuration, viewport, projection, program and vertex layout
binding, in source order. -/
def setupRenderStates (r : ImGuiRenderer) (dd : ImDrawData)
    (fbWidth fbHeight : ℤ) (vertexArrayObject : ℕ) : List GLCall :=
  [GLCall.enable Capability.blend,
   GLCall.blendEquation GL_FUNC_ADD,
   GLCall.blendFuncSeparate GL_SRC_ALPHA GL_ONE_MINUS_SRC_ALPHA GL_ONE
     GL_ONE_MINUS_SRC_ALPHA,
   GLCall.disable Capability.cullFace,
   GLCall.disable Capability.depthTest,
   GLCall.disable Capability.stencilTest,
   GLCall.enable Capability.scissorTest,
   GLCall.viewport 0 0 fbWidth fbHeight,
   GLCall.useProgram r.mShaderHandle,
   GLCall.uniform1i r.mAttribLocationTex 0,
   GLCall.uniformMatrix4fv r.mAttribLocationProjMtx (orthoProjection dd),
   GLCall.bindVertexArray vertexArrayObject,
   GLCall.bindBuffer BufferTarget.arrayBuffer r.mVboHandle,
   GLCall.bindBuffer BufferTarget.elementArrayBuffer r.mElementsHandle,
   GLCall.enableVertexAttribArray r.mAttribLocationVtxPos,
   GLCall.enableVertexAttribArray r.mAttribLocationVtxUV,
   GLCall.enableVertexAttribArray r.mAttribLocationVtxColor,
   GLCall.vertexAttribPointer r.mAttribLocationVtxPos 2 GL_FLOAT false
     sizeofImDrawVert 0,
   GLCall.vertexAttribPointer r.mAttribLocationVtxUV 2 GL_FLOAT false
     sizeofImDrawVert 8,
   GLCall.vertexAttribPointer r.mAttribLocationVtxColor 4 GL_UNSIGNED_BYTE
     true sizeofImDrawVert 16]

/-- The per-command body of the inner loop of renderDrawList: dispatch a
user callback, or clip, bind and draw. -/
def renderDrawCmd (r : ImGuiRenderer) (dd : ImDrawData)
    (fbWidth fbHeight : ℤ) (vao : ℕ) (clipOff clipScale : ImVec2)
    (cmd : ImDrawCmd) : List GLCall :=
  match cmd.userCallback with
  | some DrawCallbackKind.resetRenderState =>
      setupRenderStates r dd fbWidth fbHeight vao
  | some (DrawCallbackKind.custom k) => [GLCall.userCallback k]
  | none =>
      if cmd.elemCount ≠ 0 then
        let clipMinX := (cmd.clipRect.x - clipOff.x) * clipScale.x
        let clipMinY := (cmd.clipRect.y - clipOff.y) * clipScale.y
        let clipMaxX := (cmd.clipRect.z - clipOff.x) * clipScale.x
        let clipMaxY := (cmd.clipRect.w - clipOff.y) * clipScale.y
        if clipMaxX ≤ clipMinX ∨ clipMaxY ≤ clipMinY then []
        else
          [GLCall.scissor (qtrunc clipMinX)
             (qtrunc ((fbHeight : ℚ) - clipMaxY))
             (qtrunc (clipMaxX - clipMinX)) (qtrunc (clipMaxY - clipMinY)),
           GLCall.bindTexture cmd.textureId,
           GLCall.drawElements GL_TRIANGLES cmd.elemCount GL_UNSIGNED_SHORT
             (cmd.idxOffset * sizeofImDrawIdx)]
      else []

/-- The per-segment body of renderDrawList: grow the retained buffers if the
segment data exceeds their capacity, upload the data, then run the draw
commands in order.  Returns the emitted calls and the updated
mVertexBufferSize / mIndexBufferSize. -/
def renderCmdList (r : ImGuiRenderer) (dd : ImDrawData)
    (fbWidth fbHeight : ℤ) (vao : ℕ) (clipOff clipScale : ImVec2)
    (bufV bufI : ℕ) (cmdList : ImDrawList) : List GLCall × ℕ × ℕ :=
  let vtxBufferSize := vtxBufferSizeOf cmdList
  let idxBufferSize := idxBufferSizeOf cmdList
  let growV : List GLCall :=
    if bufV < vtxBufferSize then
      [GLCall.bufferData BufferTarget.arrayBuffer vtxBufferSize]
    else []
  let bufV2 := if bufV < vtxBufferSize then vtxBufferSize else bufV
  let growI : List GLCall :=
    if bufI < idxBufferSize then
      [GLCall.bufferData BufferTarget.elementArrayBuffer idxBufferSize]
    else []
  let bufI2 := if bufI < idxBufferSize then idxBufferSize else bufI
  (growV ++ growI ++
   [GLCall.bufferSubData BufferTarget.arrayBuffer 0 vtxBufferSize,
    GLCall.bufferSubData BufferTarget.elementArrayBuffer 0 idxBufferSize] ++
   cmdList.cmdBuffer.flatMap
     (renderDrawCmd r dd fbWidth fbHeight vao clipOff clipScale),
   bufV2, bufI2)

/-- The segment loop of renderDrawList, threading the retained buffer
capacities through the segments. -/
def renderCmdLists (r : ImGuiRenderer) (dd : ImDrawData)
    (fbWidth fbHeight : ℤ) (vao : ℕ) (clipOff clipScale : ImVec2) :
    List ImDrawList → ℕ → ℕ → List GLCall × ℕ × ℕ
  | [], bufV, bufI => ([], bufV, bufI)
  | l :: ls, bufV, bufI =>
      let step :=
        renderCmdList r dd fbWidth fbHeight vao clipOff clipScale bufV bufI l
      let rest :=
        renderCmdLists r dd fbWidth fbHeight vao clipOff clipScale ls
          step.2.1 step.2.2
      (step.1 ++ rest.1, rest.2.1, rest.2.2)

/-- The restore block at the end of renderDrawList, re-applying every
captured state value in source order.  `s0` is the state captured by the
backup block at entry. -/
def restoreCalls (s0 : GLState) : List GLCall :=
  [GLCall.useProgram s0.currentProgram,
   GLCall.bindTexture s0.textureBinding2D,
   GLCall.activeTexture s0.activeTexture,
   GLCall.bindVertexArray s0.vertexArrayBinding,
   GLCall.bindBuffer BufferTarget.arrayBuffer s0.arrayBufferBinding,
   GLCall.bindBuffer BufferTarget.elementArrayBuffer
     s0.elementArrayBufferBinding,
   GLCall.blendEquationSeparate s0.blendEquationRgb s0.blendEquationAlpha,
   GLCall.blendFuncSeparate s0.blendSrcRgb s0.blendDstRgb s0.blendSrcAlpha
     s0.blendDstAlpha,
   (if s0.blendEnabled then GLCall.enable Capability.blend
    else GLCall.disable Capability.blend),
   (if s0.cullFaceEnabled then GLCall.enable Capability.cullFace
    else GLCall.disable Capability.cullFace),
   (if s0.depthTestEnabled then GLCall.enable Capability.depthTest
    else GLCall.disable Capability.depthTest),
   (if s0.scissorTestEnabled then GLCall.enable Capability.scissorTest
    else GLCall.disable Capability.scissorTest),
   GLCall.viewport s0.viewport.1 s0.viewport.2.1 s0.viewport.2.2.1
     s0.viewport.2.2.2,
   GLCall.scissor s0.scissorBox.1 s0.scissorBox.2.1 s0.scissorBox.2.2.1
     s0.scissorBox.2.2.2]

/-- ImGuiRenderer::renderDrawList.  Given the renderer fields, the ImGuiIO
display metrics, the draw data and the OpenGL state at entry, returns the
updated renderer fields, the draw data after ScaleClipRects, and the list
of OpenGL calls issued.  A zero framebuffer dimension returns immediately
with no call and no mutation. -/
def renderDrawList (r : ImGuiRenderer) (ioV : IOView) (dd : ImDrawData)
    (s0 : GLState) : ImGuiRenderer × ImDrawData × List GLCall :=
  let fbWidth := qtrunc (ioV.displaySize.x * ioV.displayFramebufferScale.x)
  let fbHeight := qtrunc (ioV.displaySize.y * ioV.displayFramebufferScale.y)
  if fbWidth = 0 ∨ fbHeight = 0 then (r, dd, [])
  else
    let dd2 := scaleClipRects dd ioV.displayFramebufferScale
    let vao := s0.nextFreeName
    let clipOff := dd2.displayPos
    let clipScale := dd2.framebufferScale
    let seg := renderCmdLists r dd2 fbWidth fbHeight vao clipOff clipScale
      dd2.cmdLists r.mVertexBufferSize r.mIndexBufferSize
    ({ r with mVertexBufferSize := seg.2.1, mIndexBufferSize := seg.2.2 },
     dd2,
     GLCall.activeTexture GL_TEXTURE0 ::
     GLCall.genVertexArray vao ::
     (setupRenderStates r dd2 fbWidth fbHeight vao ++
      seg.1 ++
      GLCall.deleteVertexArray vao ::
      restoreCalls s0))

/-- A sequence of renderDrawList invocations on one renderer, threading the
renderer fields and the OpenGL state. -/
def renderSeq (env : ℕ → GLState → GLState) :
    ImGuiRenderer → GLState → List (IOView × ImDrawData) →
    ImGuiRenderer × GLState
  | r, s, [] => (r, s)
  | r, s, (ioV, dd) :: rest =>
      let step := renderDrawList r ioV dd s
      renderSeq env step.1 (execList env step.2.2 s) rest

/-! The input-translation side: the logical keys, the key and cursor
mapping tables, the toolkit event records, and the entry points embedded as
emitters of ImGui API calls. -/

/-- The logical keys the binding reports (the subset of ImGuiKey it uses). -/
inductive ImGuiKey
  | Tab
  | LeftArrow
  | RightArrow
  | UpArrow
  | DownArrow
  | PageUp
  | PageDown
  | Home
  | End
  | Insert
  | Delete
  | Backspace
  | Space
  | Enter
  | Escape
  | A
  | C
  | V
  | X
  | Y
  | Z
  | ModCtrl
  | ModShift
  | ModAlt
  | ModSuper
deriving DecidableEq, Repr

/-! Qt key codes, button masks and cursor shapes used by the source. -/

def Qt_Key_Escape : ℕ := 0x01000000
def Qt_Key_Tab : ℕ := 0x01000001
def Qt_Key_Backspace : ℕ := 0x01000003
def Qt_Key_Return : ℕ := 0x01000004
def Qt_Key_Enter : ℕ := 0x01000005
def Qt_Key_Insert : ℕ := 0x01000006
def Qt_Key_Delete : ℕ := 0x01000007
def Qt_Key_Home : ℕ := 0x01000010
def Qt_Key_End : ℕ := 0x01000011
def Qt_Key_Left : ℕ := 0x01000012
def Qt_Key_Up : ℕ := 0x01000013
def Qt_Key_Right : ℕ := 0x01000014
def Qt_Key_Down : ℕ := 0x01000015
def Qt_Key_PageUp : ℕ := 0x01000016
def Qt_Key_PageDown : ℕ := 0x01000017
def Qt_Key_Space : ℕ := 0x20
def Qt_Key_A : ℕ := 0x41
def Qt_Key_C : ℕ := 0x43
def Qt_Key_V : ℕ := 0x56
def Qt_Key_X : ℕ := 0x58
def Qt_Key_Y : ℕ := 0x59
def Qt_Key_Z : ℕ := 0x5A

def Qt_LeftButton : ℕ := 0x1
def Qt_RightButton : ℕ := 0x2
def Qt_MiddleButton : ℕ := 0x4

def Qt_ArrowCursor : ℕ := 0
def Qt_IBeamCursor : ℕ := 4
def Qt_SizeVerCursor : ℕ := 5
def Qt_SizeHorCursor : ℕ := 6
def Qt_SizeBDiagCursor : ℕ := 7
def Qt_SizeFDiagCursor : ℕ := 8
def Qt_SizeAllCursor : ℕ := 9
def Qt_BlankCursor : ℕ := 10
def Qt_PointingHandCursor : ℕ := 13
def Qt_ForbiddenCursor : ℕ := 14

/-! ImGui mouse-cursor and mouse-button enumerants. -/

def ImGuiMouseCursor_None : ℤ := -1
def ImGuiMouseCursor_Arrow : ℤ := 0
def ImGuiMouseCursor_TextInput : ℤ := 1
def ImGuiMouseCursor_ResizeAll : ℤ := 2
def ImGuiMouseCursor_ResizeNS : ℤ := 3
def ImGuiMouseCursor_ResizeEW : ℤ := 4
def ImGuiMouseCursor_ResizeNESW : ℤ := 5
def ImGuiMouseCursor_ResizeNWSE : ℤ := 6
def ImGuiMouseCursor_Hand : ℤ := 7
def ImGuiMouseCursor_NotAllowed : ℤ := 8

def ImGuiMouseButton_Left : ℕ := 0
def ImGuiMouseButton_Right : ℕ := 1
def ImGuiMouseButton_Middle : ℕ := 2

/-- The key-mapping table of the source: Qt key code to logical key. -/
def keyMap : List (ℕ × ImGuiKey) :=
  [(Qt_Key_Tab, ImGuiKey.Tab),
   (Qt_Key_Left, ImGuiKey.LeftArrow),
   (Qt_Key_Right, ImGuiKey.RightArrow),
   (Qt_Key_Up, ImGuiKey.UpArrow),
   (Qt_Key_Down, ImGuiKey.DownArrow),
   (Qt_Key_PageUp, ImGuiKey.PageUp),
   (Qt_Key_PageDown, ImGuiKey.PageDown),
   (Qt_Key_Home, ImGuiKey.Home),
   (Qt_Key_End, ImGuiKey.End),
   (Qt_Key_Insert, ImGuiKey.Insert),
   (Qt_Key_Delete, ImGuiKey.Delete),
   (Qt_Key_Backspace, ImGuiKey.Backspace),
   (Qt_Key_Space, ImGuiKey.Space),
   (Qt_Key_Enter, ImGuiKey.Enter),
   (Qt_Key_Return, ImGuiKey.Enter),
   (Qt_Key_Escape, ImGuiKey.Escape),
   (Qt_Key_A, ImGuiKey.A),
   (Qt_Key_C, ImGuiKey.C),
   (Qt_Key_V, ImGuiKey.V),
   (Qt_Key_X, ImGuiKey.X),
   (Qt_Key_Y, ImGuiKey.Y),
   (Qt_Key_Z, ImGuiKey.Z)]

/-- The cursor-mapping table of the source: logical cursor shape to Qt
cursor shape. -/
def cursorMap : List (ℤ × ℕ) :=
  [(ImGuiMouseCursor_Arrow, Qt_ArrowCursor),
   (ImGuiMouseCursor_TextInput, Qt_IBeamCursor),
   (ImGuiMouseCursor_ResizeAll, Qt_SizeAllCursor),
   (ImGuiMouseCursor_ResizeNS, Qt_SizeVerCursor),
   (ImGuiMouseCursor_ResizeEW, Qt_SizeHorCursor),
   (ImGuiMouseCursor_ResizeNESW, Qt_SizeBDiagCursor),
   (ImGuiMouseCursor_ResizeNWSE, Qt_SizeFDiagCursor),
   (ImGuiMouseCursor_Hand, Qt_PointingHandCursor),
   (ImGuiMouseCursor_NotAllowed, Qt_ForbiddenCursor)]

/-- A Qt mouse event: the aggregate mask of buttons currently down, and the
single button that triggered the event (read by the source only through
buttons()). -/
structure QMouseEvent where
  buttons : ℕ
  button : ℕ
deriving DecidableEq, Repr

/-- A Qt wheel event: pixel-precision delta and notch-based angle delta per
axis. -/
structure QWheelEvent where
  pixelDeltaX : ℤ
  pixelDeltaY : ℤ
  angleDeltaX : ℤ
  angleDeltaY : ℤ
deriving DecidableEq, Repr

/-- A Qt key event: whether its type is KeyPress, the key code, the text,
and the live modifier flags. -/
structure QKeyEvent where
  isKeyPress : Bool
  key : ℕ
  text : List Char
  modCtrl : Bool
  modShift : Bool
  modAlt : Bool
  modMeta : Bool
deriving DecidableEq, Repr

/-- One call made against the immediate-mode library (or the host window)
by an entry point of the binding, in order. -/
inductive ImGuiCall
  | setCurrentContext (c : ℕ)
  | addMouseButtonEvent (button : ℕ) (down : Bool)
  | addMouseWheelEvent (wx wy : ℚ)
  | addKeyEvent (key : ImGuiKey) (down : Bool)
  | addInputCharacter (code : ℕ)
  | addMousePosEvent (x y : ℚ)
  | setDisplaySize (w h : ℚ)
  | setDisplayFramebufferScale (sx sy : ℚ)
  | setDeltaTime (dt : ℚ)
  | imguiNewFrame
  | getDrawData
  | hostSetCursorPos (x y : ℤ)
  | hostSetCursorShape (shape : ℕ)
  | glCall (c : GLCall)
deriving DecidableEq, Repr

/-- Whether a call mutates the normalized input state of the library. -/
def mutatesInput : ImGuiCall → Bool
  | ImGuiCall.addMouseButtonEvent _ _ => true
  | ImGuiCall.addMouseWheelEvent _ _ => true
  | ImGuiCall.addKeyEvent _ _ => true
  | ImGuiCall.addInputCharacter _ => true
  | ImGuiCall.addMousePosEvent _ _ => true
  | ImGuiCall.setDisplaySize _ _ => true
  | ImGuiCall.setDisplayFramebufferScale _ _ => true
  | ImGuiCall.setDeltaTime _ => true
  | _ => false

/-- Whether a call issues a draw call. -/
def issuesDraw : ImGuiCall → Bool
  | ImGuiCall.glCall (GLCall.drawElements _ _ _ _) => true
  | _ => false

/-- Whether a call selects context `c` as current. -/
def isSetCurrentContext (c : ℕ) : ImGuiCall → Bool
  | ImGuiCall.setCurrentContext d => c == d
  | _ => false

/-- True when every input-state mutation and draw call in the trace is
preceded by a selection of context `c`. -/
def selectsContextFirst (c : ℕ) : List ImGuiCall → Bool
  | [] => true
  | e :: rest =>
      if isSetCurrentContext c e then true
      else if mutatesInput e || issuesDraw e then false
      else selectsContextFirst c rest

/-- ImGuiRenderer::onMousePressedChange: select the context, then report
each tracked button from the aggregate button mask of the event. -/
def onMousePressedChange (c : ℕ) (event : QMouseEvent) : List ImGuiCall :=
  [ImGuiCall.setCurrentContext c,
   ImGuiCall.addMouseButtonEvent ImGuiMouseButton_Left
     ((event.buttons &&& Qt_LeftButton) != 0),
   ImGuiCall.addMouseButtonEvent ImGuiMouseButton_Right
     ((event.buttons &&& Qt_RightButton) != 0),
   ImGuiCall.addMouseButtonEvent ImGuiMouseButton_Middle
     ((event.buttons &&& Qt_MiddleButton) != 0)]

/-- The scroll deltas computed by ImGuiRenderer::onWheel, given the text
line height queried from the library. -/
def onWheelDeltas (event : QWheelEvent) (textLineHeight : ℚ) : ℚ × ℚ :=
  (if event.pixelDeltaX ≠ 0 then (event.pixelDeltaX : ℚ) / textLineHeight
   else (event.angleDeltaX : ℚ) / 120,
   if event.pixelDeltaY ≠ 0 then
     (event.pixelDeltaY : ℚ) / (5 * textLineHeight)
   else (event.angleDeltaY : ℚ) / 120)

/-- ImGuiRenderer::onWheel: select the context, then report the scroll
deltas. -/
def onWheel (c : ℕ) (event : QWheelEvent) (textLineHeight : ℚ) :
    List ImGuiCall :=
  [ImGuiCall.setCurrentContext c,
   ImGuiCall.addMouseWheelEvent (onWheelDeltas event textLineHeight).1
     (onWheelDeltas event textLineHeight).2]

/-- ImGuiRenderer::onKeyPressRelease (the non-Apple branch of the modifier
remapping): select the context, report the mapped logical key when the key
code is in the table, append a single-character text on a press, and report
the four modifier flags from the live modifier mask. -/
def onKeyPressRelease (c : ℕ) (event : QKeyEvent) : List ImGuiCall :=
  ImGuiCall.setCurrentContext c ::
  ((match keyMap.lookup event.key with
    | some k => [ImGuiCall.addKeyEvent k event.isKeyPress]
    | none => []) ++
   (if event.isKeyPress then
      match event.text with
      | [ch] => [ImGuiCall.addInputCharacter ch.toNat]
      | _ => []
    else []) ++
   [ImGuiCall.addKeyEvent ImGuiKey.ModCtrl event.modCtrl,
    ImGuiCall.addKeyEvent ImGuiKey.ModShift event.modShift,
    ImGuiCall.addKeyEvent ImGuiKey.ModAlt event.modAlt,
    ImGuiCall.addKeyEvent ImGuiKey.ModSuper event.modMeta])

/-- The ImGuiIO flag fields read by setCursorPos and updateCursorShape. -/
structure IOFlags where
  wantSetMousePos : Bool
  mousePosX : ℚ
  mousePosY : ℚ
  noMouseCursorChange : Bool
  mouseDrawCursor : Bool
deriving DecidableEq, Repr

/-- The host-side readings consumed by one newFrame call. -/
structure FrameInputs where
  winWidth : ℤ
  winHeight : ℤ
  devicePixelRatio : ℚ
  currentTimeMs : ℤ
  isActive : Bool
  cursorX : ℤ
  cursorY : ℤ
  mouseCursor : ℤ
deriving DecidableEq, Repr

/-- The wall-clock reading in seconds
(QDateTime::currentMSecsSinceEpoch() / 1000). -/
def currentTimeOf (ms : ℤ) : ℚ := (ms : ℚ) / 1000

/-- The delta-time computation of newFrame: the elapsed seconds since the
stored mTime when mTime is positive, the fixed 1/60 fallback otherwise. -/
def newFrameDelta (mTime : ℚ) (ms : ℤ) : ℚ :=
  if mTime > 0 then currentTimeOf ms - mTime else 1 / 60

/-- ImGuiRenderer::setCursorPos: warp the host pointer when the library
requests it. -/
def setCursorPos (fl : IOFlags) : List ImGuiCall :=
  if fl.wantSetMousePos then
    [ImGuiCall.hostSetCursorPos (qtrunc fl.mousePosX) (qtrunc fl.mousePosY)]
  else []

/-- ImGuiRenderer::updateCursorShape: honor the no-change flag, hide the
cursor when the library draws it or wants none, otherwise map the logical
shape through the cursor table, falling back to the arrow shape. -/
def updateCursorShape (fl : IOFlags) (imguiCursor : ℤ) : List ImGuiCall :=
  if fl.noMouseCursorChange then []
  else if fl.mouseDrawCursor || imguiCursor == ImGuiMouseCursor_None then
    [ImGuiCall.hostSetCursorShape Qt_BlankCursor]
  else
    match cursorMap.lookup imguiCursor with
    | some shape => [ImGuiCall.hostSetCursorShape shape]
    | none => [ImGuiCall.hostSetCursorShape Qt_ArrowCursor]

/-- ImGuiRenderer::newFrame: push display size, framebuffer scale and
delta time, apply a pending pointer warp, report the pointer position (an
off-screen sentinel for an unfocused window), apply the cursor shape, then
open the new frame.  Returns the calls and the new stored mTime. -/
def newFrame (mTime : ℚ) (inp : FrameInputs) (fl : IOFlags) :
    List ImGuiCall × ℚ :=
  (ImGuiCall.setDisplaySize (inp.winWidth : ℚ) (inp.winHeight : ℚ) ::
   ImGuiCall.setDisplayFramebufferScale inp.devicePixelRatio
     inp.devicePixelRatio ::
   ImGuiCall.setDeltaTime (newFrameDelta mTime inp.currentTimeMs) ::
   (setCursorPos fl ++
    (if inp.isActive then
       [ImGuiCall.addMousePosEvent (inp.cursorX : ℚ) (inp.cursorY : ℚ)]
     else [ImGuiCall.addMousePosEvent (-1) (-1)]) ++
    updateCursorShape fl inp.mouseCursor ++
    [ImGuiCall.imguiNewFrame]),
   currentTimeOf inp.currentTimeMs)

/-- The delta-time sequence produced by successive newFrame calls from a
stored mTime of t0, given the wall-clock readings in milliseconds. -/
def runDeltas (t0 : ℚ) : List ℤ → List ℚ
  | [] => []
  | ms :: rest => newFrameDelta t0 ms :: runDeltas (currentTimeOf ms) rest

/-- ImGuiRenderer::render: fetch the draw data from the current context and
rasterize it. -/
def render (r : ImGuiRenderer) (ioV : IOView) (dd : ImDrawData)
    (s0 : GLState) : List ImGuiCall :=
  ImGuiCall.getDrawData ::
  (renderDrawList r ioV dd s0).2.2.map ImGuiCall.glCall

/-- A Qt event as seen by the event filter. -/
inductive QEvent
  | mouseButtonDblClick (e : QMouseEvent)
  | mouseButtonPress (e : QMouseEvent)
  | mouseButtonRelease (e : QMouseEvent)
  | wheel (e : QWheelEvent)
  | keyPress (e : QKeyEvent)
  | keyRelease (e : QKeyEvent)
  | other (ty : ℕ)
deriving DecidableEq, Repr

/-- ImGuiRenderer::eventFilter: when the watched object is the bound
window, translate the watched event kinds into input-state updates, then
in every case return the verdict of the base-class QObject event filter
(modelled by `base`). -/
def eventFilter (c : ℕ) (textLineHeight : ℚ) (windowObj : ℕ)
    (base : ℕ → QEvent → Bool) (watched : ℕ) (event : QEvent) :
    List ImGuiCall × Bool :=
  ((if watched = windowObj then
      match event with
      | QEvent.mouseButtonDblClick e => onMousePressedChange c e
      | QEvent.mouseButtonPress e => onMousePressedChange c e
      | QEvent.mouseButtonRelease e => onMousePressedChange c e
      | QEvent.wheel e => onWheel c e textLineHeight
      | QEvent.keyPress e => onKeyPressRelease c e
      | QEvent.keyRelease e => onKeyPressRelease c e
      | QEvent.other _ => []
    else []),
   base watched event)

/-- Whether a logical key is one of the four modifier keys. -/
def isModifierKey : ImGuiKey → Bool
  | ImGuiKey.ModCtrl => true
  | ImGuiKey.ModShift => true
  | ImGuiKey.ModAlt => true
  | ImGuiKey.ModSuper => true
  | _ => false

/-- True when every key event in the trace is for a modifier key, i.e. no
logical-key press or release is reported. -/
def onlyModifierKeyEvents (calls : List ImGuiCall) : Bool :=
  calls.all fun e =>
    match e with
    | ImGuiCall.addKeyEvent k _ => isModifierKey k
    | _ => true

/-! Concrete example values used to instantiate theorems with hypotheses. -/

/-- An example OpenGL entry state with pairwise distinct values. -/
def exampleState : GLState :=
  ⟨3, 7, 11, 13, 17, 19, 23, 29, 31, 37, 41, 43, (1, 2, 3, 4), (5, 6, 7, 8),
   true, false, true, false, true, 100⟩

/-- An example renderer. -/
def exampleRenderer : ImGuiRenderer := ⟨50, 51, 52, 0, 1, 2, 3, 4, 0, 0⟩

/-- An example draw list: one segment with one visible draw command. -/
def exampleDrawData : ImDrawData :=
  ⟨⟨0, 0⟩, ⟨100, 100⟩, ⟨1, 1⟩,
   [⟨4, 6, [⟨6, ⟨0, 0, 100, 100⟩, 9, 0, none⟩]⟩]⟩

/-- Example display metrics: a 100 by 100 display at scale 1. -/
def exampleIOView : IOView := ⟨⟨100, 100⟩, ⟨1, 1⟩⟩

/-! Helper lemmas about the call interpreter. -/

lemma execList_cons (env : ℕ → GLState → GLState) (a : GLCall)
    (l : List GLCall) (s : GLState) :
    execList env (a :: l) s = execList env l (exec env s a) := rfl

lemma execList_append (env : ℕ → GLState → GLState) (l1 l2 : List GLCall)
    (s : GLState) :
    execList env (l1 ++ l2) s = execList env l2 (execList env l1 s) := by
  simp [execList, List.foldl_append]

/-- The restore block overwrites exactly the captured values, leaving the
stencil flag and the name counter of the intermediate state. -/
lemma execList_restoreCalls (env : ℕ → GLState → GLState) (s0 m : GLState) :
    execList env (restoreCalls s0) m =
      { m with
        activeTexture := s0.activeTexture,
        currentProgram := s0.currentProgram,
        textureBinding2D := s0.textureBinding2D,
        arrayBufferBinding := s0.arrayBufferBinding,
        elementArrayBufferBinding := s0.elementArrayBufferBinding,
        vertexArrayBinding := s0.vertexArrayBinding,
        blendSrcRgb := s0.blendSrcRgb,
        blendDstRgb := s0.blendDstRgb,
        blendSrcAlpha := s0.blendSrcAlpha,
        blendDstAlpha := s0.blendDstAlpha,
        blendEquationRgb := s0.blendEquationRgb,
        blendEquationAlpha := s0.blendEquationAlpha,
        viewport := s0.viewport,
        scissorBox := s0.scissorBox,
        blendEnabled := s0.blendEnabled,
        cullFaceEnabled := s0.cullFaceEnabled,
        depthTestEnabled := s0.depthTestEnabled,
        scissorTestEnabled := s0.scissorTestEnabled } := by
  obtain ⟨a1, a2, a3, a4, a5, a6, a7, a8, a9, a10, a11, a12, vp, sb,
    b1, b2, b3, b4, b5, nf⟩ := s0
  cases b1 <;> cases b2 <;> cases b3 <;> cases b5 <;> rfl

/-- Claim C7: a zero framebuffer dimension makes renderDrawList return
immediately: no OpenGL call is issued, the clip rectangles are not scaled,
and neither the renderer fields nor the OpenGL state change. -/
theorem C7_zero_framebuffer_skips (env : ℕ → GLState → GLState)
    (r : ImGuiRenderer) (ioV : IOView) (dd : ImDrawData) (s0 : GLState)
    (h : qtrunc (ioV.displaySize.x * ioV.displayFramebufferScale.x) = 0 ∨
         qtrunc (ioV.displaySize.y * ioV.displayFramebufferScale.y) = 0) :
    renderDrawList r ioV dd s0 = (r, dd, []) ∧
    execList env (renderDrawList r ioV dd s0).2.2 s0 = s0 := by
  have h1 : renderDrawList r ioV dd s0 = (r, dd, []) := by
    unfold renderDrawList
    rw [if_pos h]
  refine ⟨h1, ?_⟩
  rw [h1]
  rfl

/-- Claim C7 witness: a minimized 0 by 100 display. -/
theorem C7_witness :
    (qtrunc ((0 : ℚ) * 1) = 0 ∨ qtrunc ((100 : ℚ) * 1) = 0) ∧
    renderDrawList exampleRenderer ⟨⟨0, 100⟩, ⟨1, 1⟩⟩ exampleDrawData
        exampleState =
      (exampleRenderer, exampleDrawData, []) ∧
    execList (fun _ s => s)
        (renderDrawList exampleRenderer ⟨⟨0, 100⟩, ⟨1, 1⟩⟩ exampleDrawData
          exampleState).2.2 exampleState = exampleState :=
  ⟨by norm_num [qtrunc],
   (C7_zero_framebuffer_skips (fun _ s => s) exampleRenderer ⟨⟨0, 100⟩, ⟨1, 1⟩⟩
     exampleDrawData exampleState (by norm_num [qtrunc])).1,
   (C7_zero_framebuffer_skips (fun _ s => s) exampleRenderer ⟨⟨0, 100⟩, ⟨1, 1⟩⟩
     exampleDrawData exampleState (by norm_num [qtrunc])).2⟩

/-- Claim C2: on each wheel axis independently, a zero pixel delta reports
the angle delta divided by 120, and a nonzero pixel delta ignores the angle
delta and reports the pixel delta divided by the text line height
(5 times the text line height on the vertical axis). -/
theorem C2_wheel_scroll (c : ℕ) (event : QWheelEvent) (textLineHeight : ℚ) :
    (event.pixelDeltaX = 0 →
      (onWheelDeltas event textLineHeight).1 =
        (event.angleDeltaX : ℚ) / 120) ∧
    (event.pixelDeltaX ≠ 0 →
      (onWheelDeltas event textLineHeight).1 =
        (event.pixelDeltaX : ℚ) / textLineHeight) ∧
    (event.pixelDeltaY = 0 →
      (onWheelDeltas event textLineHeight).2 =
        (event.angleDeltaY : ℚ) / 120) ∧
    (event.pixelDeltaY ≠ 0 →
      (onWheelDeltas event textLineHeight).2 =
        (event.pixelDeltaY : ℚ) / (5 * textLineHeight)) ∧
    onWheel c event textLineHeight =
      [ImGuiCall.setCurrentContext c,
       ImGuiCall.addMouseWheelEvent (onWheelDeltas event textLineHeight).1
         (onWheelDeltas event textLineHeight).2] := by
  refine ⟨?_, ?_, ?_, ?_, rfl⟩ <;> intro h <;> simp [onWheelDeltas, h]

/-- Claim C2 witness: an angle-only event and a pixel event on both axes. -/
theorem C2_witness :
    (onWheelDeltas ⟨0, 0, 240, 7⟩ 16).1 = ((240 : ℤ) : ℚ) / 120 ∧
    (onWheelDeltas ⟨0, 0, 240, 7⟩ 16).2 = ((7 : ℤ) : ℚ) / 120 ∧
    (onWheelDeltas ⟨30, 40, 1, 2⟩ 16).1 = ((30 : ℤ) : ℚ) / 16 ∧
    (onWheelDeltas ⟨30, 40, 1, 2⟩ 16).2 = ((40 : ℤ) : ℚ) / (5 * 16) :=
  ⟨(C2_wheel_scroll 0 ⟨0, 0, 240, 7⟩ 16).1 (by decide),
   (C2_wheel_scroll 0 ⟨0, 0, 240, 7⟩ 16).2.2.1 (by decide),
   (C2_wheel_scroll 0 ⟨30, 40, 1, 2⟩ 16).2.1 (by decide),
   (C2_wheel_scroll 0 ⟨30, 40, 1, 2⟩ 16).2.2.2.1 (by decide)⟩

/-- Claim C9: every mouse press, release or double-click reports the down
state of the left, right and middle buttons from the corresponding bit of
the aggregate button mask of the event, independent of which single button
triggered the event. -/
theorem C9_button_mask (c : ℕ) (event : QMouseEvent) :
    onMousePressedChange c event =
      [ImGuiCall.setCurrentContext c,
       ImGuiCall.addMouseButtonEvent ImGuiMouseButton_Left
         (event.buttons.testBit 0),
       ImGuiCall.addMouseButtonEvent ImGuiMouseButton_Right
         (event.buttons.testBit 1),
       ImGuiCall.addMouseButtonEvent ImGuiMouseButton_Middle
         (event.buttons.testBit 2)] ∧
    (∀ b : ℕ, onMousePressedChange c { event with button := b } =
      onMousePressedChange c event) := by
  have hbit : ∀ (n i : ℕ), ((n &&& 2 ^ i) != 0) = n.testBit i := by
    intro n i
    cases h : n.testBit i <;> simp [Nat.and_two_pow, h]
  constructor
  · have h0 := hbit event.buttons 0
    have h1 := hbit event.buttons 1
    have h2 := hbit event.buttons 2
    norm_num at h0 h1 h2
    simp [onMousePressedChange, Qt_LeftButton, Qt_RightButton,
      Qt_MiddleButton, h0, h1, h2]
  · intro b
    rfl

/-- Claim C10: the event filter always returns the verdict of the
base-class QObject event filter, never consuming an event on its own, and
an event whose watched object is not the bound window produces no
input-state update. -/
theorem C10_event_filter (c : ℕ) (textLineHeight : ℚ) (windowObj : ℕ)
    (base : ℕ → QEvent → Bool) (watched : ℕ) (event : QEvent) :
    (eventFilter c textLineHeight windowObj base watched event).2 =
      base watched event ∧
    (watched ≠ windowObj →
      (eventFilter c textLineHeight windowObj base watched event).1 = []) := by
  refine ⟨rfl, fun h => ?_⟩
  simp [eventFilter, h]

/-- Claim C10 witness: a foreign watched object with a base filter that
declines the event. -/
theorem C10_witness :
    (2 : ℕ) ≠ 1 ∧
    (eventFilter 0 16 1 (fun _ _ => false) 2 (QEvent.other 5)).1 = [] ∧
    (eventFilter 0 16 1 (fun _ _ => false) 2 (QEvent.other 5)).2 = false :=
  ⟨by decide,
   (C10_event_filter 0 16 1 (fun _ _ => false) 2 (QEvent.other 5)).2
     (by decide),
   (C10_event_filter 0 16 1 (fun _ _ => false) 2 (QEvent.other 5)).1⟩

/-- Claim C5 counterexample: Qt key code 0x42 (the B key) is not in the
key-mapping table, yet a press with text "b" still reports events to the
input state (the text character and the four modifier events), so the event
is not wholly unreported. -/
theorem C5_counterexample :
    keyMap.lookup 0x42 = none ∧
    (onKeyPressRelease 1
        ⟨true, 0x42, [Char.ofNat 98], false, false, false, false⟩).filter
      mutatesInput ≠ [] := by decide

/-- Claim C5 (amended): for a key event whose host key code is not in the
key-mapping table, no logical-key press or release is reported; the
modifier-state events (and, on a press, a single-character text input) are
still reported as for any key event. -/
theorem C5_unmapped_key (c : ℕ) (event : QKeyEvent)
    (h : keyMap.lookup event.key = none) :
    onlyModifierKeyEvents (onKeyPressRelease c event) = true := by
  unfold onKeyPressRelease
  rw [h]
  cases event.isKeyPress
  · simp [onlyModifierKeyEvents, isModifierKey]
  · rcases htext : event.text with _ | ⟨ch, _ | ⟨c2, rest⟩⟩ <;>
      simp [onlyModifierKeyEvents, isModifierKey]

/-- Claim C5 witness: the unmapped B key press. -/
theorem C5_witness :
    keyMap.lookup 0x42 = none ∧
    onlyModifierKeyEvents (onKeyPressRelease 1
      ⟨true, 0x42, [Char.ofNat 98], false, false, false, false⟩) = true :=
  ⟨by decide,
   C5_unmapped_key 1 ⟨true, 0x42, [Char.ofNat 98], false, false, false, false⟩
     (by decide)⟩

/-- Claim C6: a draw command with no user callback whose clip rectangle,
projected into framebuffer space, is degenerate (max at most min on either
axis) emits no scissor, texture bind or draw call, and the subsequent
commands of the segment are processed unchanged. -/
theorem C6_degenerate_clip_skips (r : ImGuiRenderer) (dd : ImDrawData)
    (fbWidth fbHeight : ℤ) (vao : ℕ) (clipOff clipScale : ImVec2)
    (cmd : ImDrawCmd) (rest : List ImDrawCmd)
    (hcb : cmd.userCallback = none)
    (hdeg : (cmd.clipRect.z - clipOff.x) * clipScale.x ≤
        (cmd.clipRect.x - clipOff.x) * clipScale.x ∨
      (cmd.clipRect.w - clipOff.y) * clipScale.y ≤
        (cmd.clipRect.y - clipOff.y) * clipScale.y) :
    renderDrawCmd r dd fbWidth fbHeight vao clipOff clipScale cmd = [] ∧
    (cmd :: rest).flatMap
        (renderDrawCmd r dd fbWidth fbHeight vao clipOff clipScale) =
      rest.flatMap
        (renderDrawCmd r dd fbWidth fbHeight vao clipOff clipScale) := by
  have h1 : renderDrawCmd r dd fbWidth fbHeight vao clipOff clipScale cmd
      = [] := by
    unfold renderDrawCmd
    rw [hcb]
    by_cases he : cmd.elemCount ≠ 0
    · simp only [he, if_true, hdeg, ite_true, ite_self]
    · simp only [he, if_false]
  refine ⟨h1, ?_⟩
  simp [h1]

/-- Claim C6 witness: a command whose scaled clip rectangle has zero width,
followed by one ordinary command. -/
theorem C6_witness :
    (ImDrawCmd.mk 3 ⟨50, 50, 50, 60⟩ 9 0 none).userCallback = none ∧
    (((50 : ℚ) - 0) * 1 ≤ ((50 : ℚ) - 0) * 1 ∨
      ((60 : ℚ) - 0) * 1 ≤ ((50 : ℚ) - 0) * 1) ∧
    renderDrawCmd exampleRenderer exampleDrawData 100 100 100 ⟨0, 0⟩ ⟨1, 1⟩
      ⟨3, ⟨50, 50, 50, 60⟩, 9, 0, none⟩ = [] ∧
    ([⟨3, ⟨50, 50, 50, 60⟩, 9, 0, none⟩,
      ⟨6, ⟨0, 0, 100, 100⟩, 9, 0, none⟩] : List ImDrawCmd).flatMap
        (renderDrawCmd exampleRenderer exampleDrawData 100 100 100 ⟨0, 0⟩
          ⟨1, 1⟩) =
      ([⟨6, ⟨0, 0, 100, 100⟩, 9, 0, none⟩] : List ImDrawCmd).flatMap
        (renderDrawCmd exampleRenderer exampleDrawData 100 100 100 ⟨0, 0⟩
          ⟨1, 1⟩) :=
  ⟨rfl, by norm_num,
   (C6_degenerate_clip_skips exampleRenderer exampleDrawData 100 100 100
     ⟨0, 0⟩ ⟨1, 1⟩ ⟨3, ⟨50, 50, 50, 60⟩, 9, 0, none⟩
     [⟨6, ⟨0, 0, 100, 100⟩, 9, 0, none⟩] rfl (by norm_num)).1,
   (C6_degenerate_clip_skips exampleRenderer exampleDrawData 100 100 100
     ⟨0, 0⟩ ⟨1, 1⟩ ⟨3, ⟨50, 50, 50, 60⟩, 9, 0, none⟩
     [⟨6, ⟨0, 0, 100, 100⟩, 9, 0, none⟩] rfl (by norm_num)).2⟩

/-- Claim C4: the three event handlers select their owning context before
touching the input state, but newFrame mutates the input state (display
size, framebuffer scale, delta time, pointer position) without ever
selecting its context, and render issues draw calls without ever selecting
its context — the claim fails for newFrame and render. -/
theorem C4_context_selection :
    (∀ (c : ℕ) (event : QMouseEvent),
      selectsContextFirst c (onMousePressedChange c event) = true) ∧
    (∀ (c : ℕ) (event : QWheelEvent) (textLineHeight : ℚ),
      selectsContextFirst c (onWheel c event textLineHeight) = true) ∧
    (∀ (c : ℕ) (event : QKeyEvent),
      selectsContextFirst c (onKeyPressRelease c event) = true) ∧
    (∀ (c : ℕ) (mTime : ℚ) (inp : FrameInputs) (fl : IOFlags),
      selectsContextFirst c (newFrame mTime inp fl).1 = false) ∧
    selectsContextFirst 1
      (render exampleRenderer exampleIOView exampleDrawData exampleState) =
      false := by
  refine ⟨?_, ?_, ?_, ?_, ?_⟩
  · intro c event
    simp [onMousePressedChange, selectsContextFirst, isSetCurrentContext]
  · intro c event tlh
    simp [onWheel, selectsContextFirst, isSetCurrentContext]
  · intro c event
    simp [onKeyPressRelease, selectsContextFirst, isSetCurrentContext]
  · intro c mTime inp fl
    simp [newFrame, selectsContextFirst, isSetCurrentContext, mutatesInput,
      issuesDraw]
  · norm_num [render, renderDrawList, exampleRenderer, exampleIOView,
      exampleDrawData, exampleState, qtrunc, scaleClipRects, renderCmdLists,
      renderCmdList, renderDrawCmd, setupRenderStates, vtxBufferSizeOf,
      idxBufferSizeOf, sizeofImDrawVert, sizeofImDrawIdx, restoreCalls,
      orthoProjection, selectsContextFirst, isSetCurrentContext,
      mutatesInput, issuesDraw]

/-! Helper lemmas about the retained buffer capacities. -/

lemma renderCmdList_capV (r : ImGuiRenderer) (dd : ImDrawData)
    (fbW fbH : ℤ) (vao : ℕ) (off sc : ImVec2) (bufV bufI : ℕ)
    (l : ImDrawList) :
    (renderCmdList r dd fbW fbH vao off sc bufV bufI l).2.1 =
      if bufV < vtxBufferSizeOf l then vtxBufferSizeOf l else bufV := rfl

lemma renderCmdList_capI (r : ImGuiRenderer) (dd : ImDrawData)
    (fbW fbH : ℤ) (vao : ℕ) (off sc : ImVec2) (bufV bufI : ℕ)
    (l : ImDrawList) :
    (renderCmdList r dd fbW fbH vao off sc bufV bufI l).2.2 =
      if bufI < idxBufferSizeOf l then idxBufferSizeOf l else bufI := rfl

lemma renderCmdLists_caps_mono (r : ImGuiRenderer) (dd : ImDrawData)
    (fbW fbH : ℤ) (vao : ℕ) (off sc : ImVec2) (ls : List ImDrawList) :
    ∀ bufV bufI : ℕ,
      bufV ≤ (renderCmdLists r dd fbW fbH vao off sc ls bufV bufI).2.1 ∧
      bufI ≤ (renderCmdLists r dd fbW fbH vao off sc ls bufV bufI).2.2 := by
  induction ls with
  | nil => intro bufV bufI; exact ⟨le_refl _, le_refl _⟩
  | cons l ls ih =>
      intro bufV bufI
      simp only [renderCmdLists]
      obtain ⟨ihv, ihi⟩ :=
        ih (renderCmdList r dd fbW fbH vao off sc bufV bufI l).2.1
          (renderCmdList r dd fbW fbH vao off sc bufV bufI l).2.2
      constructor
      · refine le_trans ?_ ihv
        rw [renderCmdList_capV]
        split <;> omega
      · refine le_trans ?_ ihi
        rw [renderCmdList_capI]
        split <;> omega

lemma renderCmdLists_caps_grow (r : ImGuiRenderer) (dd : ImDrawData)
    (fbW fbH : ℤ) (vao : ℕ) (off sc : ImVec2) (ls : List ImDrawList) :
    ∀ bufV bufI : ℕ,
      ((renderCmdLists r dd fbW fbH vao off sc ls bufV bufI).2.1 = bufV ∨
        ∃ l ∈ ls, bufV < vtxBufferSizeOf l ∧
          (renderCmdLists r dd fbW fbH vao off sc ls bufV bufI).2.1 =
            vtxBufferSizeOf l) ∧
      ((renderCmdLists r dd fbW fbH vao off sc ls bufV bufI).2.2 = bufI ∨
        ∃ l ∈ ls, bufI < idxBufferSizeOf l ∧
          (renderCmdLists r dd fbW fbH vao off sc ls bufV bufI).2.2 =
            idxBufferSizeOf l) := by
  induction ls with
  | nil => intro bufV bufI; exact ⟨Or.inl rfl, Or.inl rfl⟩
  | cons l ls ih =>
      intro bufV bufI
      simp only [renderCmdLists]
      obtain ⟨ihv, ihi⟩ :=
        ih (renderCmdList r dd fbW fbH vao off sc bufV bufI l).2.1
          (renderCmdList r dd fbW fbH vao off sc bufV bufI l).2.2
      constructor
      · by_cases hA : bufV < vtxBufferSizeOf l
        · have hcap : (renderCmdList r dd fbW fbH vao off sc bufV bufI l).2.1
              = vtxBufferSizeOf l := by
            rw [renderCmdList_capV, if_pos hA]
          rw [hcap] at ihv ⊢
          rcases ihv with h | ⟨l2, hl2, hlt, heq⟩
          · exact Or.inr ⟨l, List.mem_cons_self l ls, hA, h⟩
          · exact Or.inr ⟨l2, List.mem_cons_of_mem l hl2, by omega, heq⟩
        · have hcap : (renderCmdList r dd fbW fbH vao off sc bufV bufI l).2.1
              = bufV := by
            rw [renderCmdList_capV, if_neg hA]
          rw [hcap] at ihv ⊢
          rcases ihv with h | ⟨l2, hl2, hlt, heq⟩
          · exact Or.inl h
          · exact Or.inr ⟨l2, List.mem_cons_of_mem l hl2, hlt, heq⟩
      · by_cases hA : bufI < idxBufferSizeOf l
        · have hcap : (renderCmdList r dd fbW fbH vao off sc bufV bufI l).2.2
              = idxBufferSizeOf l := by
            rw [renderCmdList_capI, if_pos hA]
          rw [hcap] at ihi ⊢
          rcases ihi with h | ⟨l2, hl2, hlt, heq⟩
          · exact Or.inr ⟨l, List.mem_cons_self l ls, hA, h⟩
          · exact Or.inr ⟨l2, List.mem_cons_of_mem l hl2, by omega, heq⟩
        · have hcap : (renderCmdList r dd fbW fbH vao off sc bufV bufI l).2.2
              = bufI := by
            rw [renderCmdList_capI, if_neg hA]
          rw [hcap] at ihi ⊢
          rcases ihi with h | ⟨l2, hl2, hlt, heq⟩
          · exact Or.inl h
          · exact Or.inr ⟨l2, List.mem_cons_of_mem l hl2, hlt, heq⟩

/-- Scaling the clip rectangles changes no vertex or index data size. -/
lemma scaleClipRects_mem (dd : ImDrawData) (sc : ImVec2) :
    ∀ l2 ∈ (scaleClipRects dd sc).cmdLists, ∃ l ∈ dd.cmdLists,
      vtxBufferSizeOf l2 = vtxBufferSizeOf l ∧
      idxBufferSizeOf l2 = idxBufferSizeOf l := by
  intro l2 hl2
  simp only [scaleClipRects, List.mem_map] at hl2
  obtain ⟨l, hl, rfl⟩ := hl2
  exact ⟨l, hl, rfl, rfl⟩

lemma renderDrawList_caps_mono (r : ImGuiRenderer) (ioV : IOView)
    (dd : ImDrawData) (s0 : GLState) :
    r.mVertexBufferSize ≤ (renderDrawList r ioV dd s0).1.mVertexBufferSize ∧
    r.mIndexBufferSize ≤ (renderDrawList r ioV dd s0).1.mIndexBufferSize := by
  unfold renderDrawList
  by_cases h : qtrunc (ioV.displaySize.x * ioV.displayFramebufferScale.x) = 0
    ∨ qtrunc (ioV.displaySize.y * ioV.displayFramebufferScale.y) = 0
  · rw [if_pos h]
    exact ⟨le_refl _, le_refl _⟩
  · rw [if_neg h]
    exact renderCmdLists_caps_mono r _ _ _ _ _ _ _ _ _

lemma renderDrawList_caps_grow (r : ImGuiRenderer) (ioV : IOView)
    (dd : ImDrawData) (s0 : GLState) :
    ((renderDrawList r ioV dd s0).1.mVertexBufferSize =
        r.mVertexBufferSize ∨
      ∃ l ∈ dd.cmdLists, r.mVertexBufferSize < vtxBufferSizeOf l ∧
        (renderDrawList r ioV dd s0).1.mVertexBufferSize =
          vtxBufferSizeOf l) ∧
    ((renderDrawList r ioV dd s0).1.mIndexBufferSize = r.mIndexBufferSize ∨
      ∃ l ∈ dd.cmdLists, r.mIndexBufferSize < idxBufferSizeOf l ∧
        (renderDrawList r ioV dd s0).1.mIndexBufferSize =
          idxBufferSizeOf l) := by
  unfold renderDrawList
  by_cases h : qtrunc (ioV.displaySize.x * ioV.displayFramebufferScale.x) = 0
    ∨ qtrunc (ioV.displaySize.y * ioV.displayFramebufferScale.y) = 0
  · rw [if_pos h]
    exact ⟨Or.inl rfl, Or.inl rfl⟩
  · rw [if_neg h]
    obtain ⟨gv, gi⟩ := renderCmdLists_caps_grow r
      (scaleClipRects dd ioV.displayFramebufferScale)
      (qtrunc (ioV.displaySize.x * ioV.displayFramebufferScale.x))
      (qtrunc (ioV.displaySize.y * ioV.displayFramebufferScale.y))
      s0.nextFreeName
      (scaleClipRects dd ioV.displayFramebufferScale).displayPos
      (scaleClipRects dd ioV.displayFramebufferScale).framebufferScale
      (scaleClipRects dd ioV.displayFramebufferScale).cmdLists
      r.mVertexBufferSize r.mIndexBufferSize
    constructor
    · rcases gv with hg | ⟨l2, hl2, hlt, heq⟩
      · exact Or.inl hg
      · obtain ⟨l, hl, hv, _⟩ := scaleClipRects_mem dd
          ioV.displayFramebufferScale l2 hl2
        exact Or.inr ⟨l, hl, hv ▸ hlt, hv ▸ heq⟩
    · rcases gi with hg | ⟨l2, hl2, hlt, heq⟩
      · exact Or.inl hg
      · obtain ⟨l, hl, _, hi⟩ := scaleClipRects_mem dd
          ioV.displayFramebufferScale l2 hl2
        exact Or.inr ⟨l, hl, hi ▸ hlt, hi ▸ heq⟩

lemma renderSeq_caps_mono (env : ℕ → GLState → GLState)
    (inputs : List (IOView × ImDrawData)) :
    ∀ (r : ImGuiRenderer) (s : GLState),
      r.mVertexBufferSize ≤ (renderSeq env r s inputs).1.mVertexBufferSize ∧
      r.mIndexBufferSize ≤ (renderSeq env r s inputs).1.mIndexBufferSize := by
  induction inputs with
  | nil => intro r s; exact ⟨le_refl _, le_refl _⟩
  | cons p rest ih =>
      intro r s
      obtain ⟨ioV, dd⟩ := p
      simp only [renderSeq]
      obtain ⟨pv, pi⟩ := renderDrawList_caps_mono r ioV dd s
      obtain ⟨qv, qi⟩ := ih (renderDrawList r ioV dd s).1
        (execList env (renderDrawList r ioV dd s).2.2 s)
      exact ⟨le_trans pv qv, le_trans pi qi⟩

/-- Claim C8: across every sequence of renderDrawList invocations the
retained vertex and index buffer capacities never shrink; within one
invocation each capacity either stays unchanged or grows to the data size
of a segment that exceeded it. -/
theorem C8_buffer_capacities (env : ℕ → GLState → GLState)
    (r : ImGuiRenderer) (ioV : IOView) (dd : ImDrawData) (s0 s : GLState)
    (inputs : List (IOView × ImDrawData)) :
    (r.mVertexBufferSize ≤ (renderDrawList r ioV dd s0).1.mVertexBufferSize ∧
     r.mIndexBufferSize ≤ (renderDrawList r ioV dd s0).1.mIndexBufferSize) ∧
    ((renderDrawList r ioV dd s0).1.mVertexBufferSize =
        r.mVertexBufferSize ∨
      ∃ l ∈ dd.cmdLists, r.mVertexBufferSize < vtxBufferSizeOf l ∧
        (renderDrawList r ioV dd s0).1.mVertexBufferSize =
          vtxBufferSizeOf l) ∧
    ((renderDrawList r ioV dd s0).1.mIndexBufferSize = r.mIndexBufferSize ∨
      ∃ l ∈ dd.cmdLists, r.mIndexBufferSize < idxBufferSizeOf l ∧
        (renderDrawList r ioV dd s0).1.mIndexBufferSize =
          idxBufferSizeOf l) ∧
    (r.mVertexBufferSize ≤ (renderSeq env r s inputs).1.mVertexBufferSize ∧
     r.mIndexBufferSize ≤ (renderSeq env r s inputs).1.mIndexBufferSize) :=
  ⟨renderDrawList_caps_mono r ioV dd s0,
   (renderDrawList_caps_grow r ioV dd s0).1,
   (renderDrawList_caps_grow r ioV dd s0).2,
   renderSeq_caps_mono env inputs r s⟩

/-! Helper lemmas about the delta-time sequence. -/

lemma runDeltas_length (t0 : ℚ) (rs : List ℤ) :
    (runDeltas t0 rs).length = rs.length := by
  induction rs generalizing t0 with
  | nil => rfl
  | cons a rest ih => simp [runDeltas, ih]

lemma runDeltas_getElem_succ (rs : List ℤ) : ∀ (t0 : ℚ) (i : ℕ)
    (hi : i < rs.length) (hsi : i + 1 < rs.length)
    (h2 : i + 1 < (runDeltas t0 rs).length),
    (runDeltas t0 rs)[i + 1] =
      newFrameDelta (currentTimeOf rs[i]) rs[i + 1] := by
  induction rs with
  | nil => intro t0 i hi _ _; simp at hi
  | cons a rest ih =>
      intro t0 i hi hsi h2
      cases i with
      | zero =>
          cases rest with
          | nil => simp at hsi
          | cons b rest2 => simp [runDeltas]
      | succ j =>
          have hi2 : j < rest.length := Nat.lt_of_succ_lt_succ hi
          have hsi2 : j + 1 < rest.length := Nat.lt_of_succ_lt_succ hsi
          have h22 : j + 1 < (runDeltas (currentTimeOf a) rest).length := by
            rw [runDeltas_length]; exact hsi2
          have hrec := ih (currentTimeOf a) j hi2 hsi2 h22
          simpa [runDeltas] using hrec

/-- Claim C3 counterexample: the delta-time is not always non-negative, and
not always equal to the elapsed time on subsequent calls.  With clock
readings 10000 ms then 5000 ms (a wall clock stepped backwards) the second
delta is -5, which is negative; with readings 0 ms then 5000 ms the second
delta is the 1/60 fallback, not the elapsed 5 seconds. -/
theorem C3_counterexample :
    runDeltas 0 [10000, 5000] = [1 / 60, -5] ∧
    (-5 : ℚ) < 0 ∧
    runDeltas 0 [0, 5000] = [1 / 60, 1 / 60] ∧
    (1 / 60 : ℚ) ≠ ((5000 : ℚ) - 0) / 1000 := by
  norm_num [runDeltas, newFrameDelta, currentTimeOf]

/-- Claim C3 (amended): the first newFrame call on a context pushes a
delta-time of exactly 1/60 regardless of the wall-clock reading; every
subsequent call whose previous reading was positive pushes the wall-clock
seconds elapsed since the previous call, a value that is non-negative
whenever the readings do not decrease (but can be negative if the wall
clock steps backwards, which the code does not guard against). -/
theorem C3_delta_time :
    (∀ (mTime : ℚ) (inp : FrameInputs) (fl : IOFlags),
      (newFrame mTime inp fl).1.get? 2 =
        some (ImGuiCall.setDeltaTime
          (newFrameDelta mTime inp.currentTimeMs)) ∧
      (newFrame mTime inp fl).2 = currentTimeOf inp.currentTimeMs) ∧
    (∀ (ms : ℤ) (rest : List ℤ),
      (runDeltas 0 (ms :: rest)).head? = some (1 / 60)) ∧
    (∀ (rs : List ℤ) (i : ℕ) (hi : i < rs.length)
      (hsi : i + 1 < rs.length) (h2 : i + 1 < (runDeltas 0 rs).length),
      0 < rs[i] →
        (runDeltas 0 rs)[i + 1] =
          ((rs[i + 1] : ℚ) - (rs[i] : ℚ)) / 1000 ∧
        (rs[i] ≤ rs[i + 1] → 0 ≤ (runDeltas 0 rs)[i + 1])) := by
  refine ⟨fun mTime inp fl => ⟨rfl, rfl⟩, ?_, ?_⟩
  · intro ms rest
    norm_num [runDeltas, newFrameDelta]
  · intro rs i hi hsi h2 hpos
    rw [runDeltas_getElem_succ rs 0 i hi hsi h2]
    have hgt : currentTimeOf rs[i] > 0 := by
      unfold currentTimeOf
      have hq : (0 : ℚ) < (rs[i] : ℚ) := by exact_mod_cast hpos
      positivity
    have heq : newFrameDelta (currentTimeOf rs[i]) rs[i + 1] =
        ((rs[i + 1] : ℚ) - (rs[i] : ℚ)) / 1000 := by
      unfold newFrameDelta
      rw [if_pos hgt]
      unfold currentTimeOf
      rw [div_sub_div_same]
    refine ⟨heq, fun hle => ?_⟩
    rw [heq]
    apply div_nonneg _ (by norm_num)
    rw [sub_nonneg]
    exact_mod_cast hle

/-- Claim C3 witness: readings 1000 ms then 3000 ms give a first delta of
1/60 and a second delta of two seconds. -/
theorem C3_witness :
    (runDeltas 0 [1000, 3000]).head? = some (1 / 60) ∧
    (0 : ℤ) < 1000 ∧
    (runDeltas 0 [1000, 3000]).get ⟨1, by rw [runDeltas_length]; norm_num⟩ =
      (((3000 : ℤ) : ℚ) - ((1000 : ℤ) : ℚ)) / 1000 := by
  refine ⟨C3_delta_time.2.1 1000 [3000], by norm_num, ?_⟩
  exact (C3_delta_time.2.2 [1000, 3000] 0 (by norm_num) (by norm_num)
    (by rw [runDeltas_length]; norm_num) (by norm_num)).1

/-- Claim C1: after a renderDrawList invocation with a nonzero framebuffer
size, every graphics-state value captured at entry — active texture unit,
current program, 2D texture binding, array and element-array buffer
bindings, vertex-array binding, the four separate blend functions, the two
blend equations, viewport, scissor box, and the blend, cull-face,
depth-test and scissor-test enable flags — equals its entry value, for any
behavior of user draw callbacks. -/
theorem C1_state_restored (env : ℕ → GLState → GLState) (r : ImGuiRenderer)
    (ioV : IOView) (dd : ImDrawData) (s0 : GLState)
    (hW : qtrunc (ioV.displaySize.x * ioV.displayFramebufferScale.x) ≠ 0)
    (hH : qtrunc (ioV.displaySize.y * ioV.displayFramebufferScale.y) ≠ 0) :
    (execList env (renderDrawList r ioV dd s0).2.2 s0).activeTexture =
      s0.activeTexture ∧
    (execList env (renderDrawList r ioV dd s0).2.2 s0).currentProgram =
      s0.currentProgram ∧
    (execList env (renderDrawList r ioV dd s0).2.2 s0).textureBinding2D =
      s0.textureBinding2D ∧
    (execList env (renderDrawList r ioV dd s0).2.2 s0).arrayBufferBinding =
      s0.arrayBufferBinding ∧
    (execList env
        (renderDrawList r ioV dd s0).2.2 s0).elementArrayBufferBinding =
      s0.elementArrayBufferBinding ∧
    (execList env (renderDrawList r ioV dd s0).2.2 s0).vertexArrayBinding =
      s0.vertexArrayBinding ∧
    (execList env (renderDrawList r ioV dd s0).2.2 s0).blendSrcRgb =
      s0.blendSrcRgb ∧
    (execList env (renderDrawList r ioV dd s0).2.2 s0).blendDstRgb =
      s0.blendDstRgb ∧
    (execList env (renderDrawList r ioV dd s0).2.2 s0).blendSrcAlpha =
      s0.blendSrcAlpha ∧
    (execList env (renderDrawList r ioV dd s0).2.2 s0).blendDstAlpha =
      s0.blendDstAlpha ∧
    (execList env (renderDrawList r ioV dd s0).2.2 s0).blendEquationRgb =
      s0.blendEquationRgb ∧
    (execList env (renderDrawList r ioV dd s0).2.2 s0).blendEquationAlpha =
      s0.blendEquationAlpha ∧
    (execList env (renderDrawList r ioV dd s0).2.2 s0).viewport =
      s0.viewport ∧
    (execList env (renderDrawList r ioV dd s0).2.2 s0).scissorBox =
      s0.scissorBox ∧
    (execList env (renderDrawList r ioV dd s0).2.2 s0).blendEnabled =
      s0.blendEnabled ∧
    (execList env (renderDrawList r ioV dd s0).2.2 s0).cullFaceEnabled =
      s0.cullFaceEnabled ∧
    (execList env (renderDrawList r ioV dd s0).2.2 s0).depthTestEnabled =
      s0.depthTestEnabled ∧
    (execList env (renderDrawList r ioV dd s0).2.2 s0).scissorTestEnabled =
      s0.scissorTestEnabled := by
  have hcond :
      ¬(qtrunc (ioV.displaySize.x * ioV.displayFramebufferScale.x) = 0 ∨
        qtrunc (ioV.displaySize.y * ioV.displayFramebufferScale.y) = 0) := by
    push_neg
    exact ⟨hW, hH⟩
  unfold renderDrawList
  rw [if_neg hcond]
  dsimp only
  simp only [execList_cons, execList_append, execList_restoreCalls]
  simp

/-- Claim C1 witness: the example draw list on a 100 by 100 framebuffer
from the example entry state, with identity callbacks. -/
theorem C1_witness :
    qtrunc ((100 : ℚ) * 1) ≠ 0 ∧
    ((execList (fun _ s => s)
        (renderDrawList exampleRenderer exampleIOView exampleDrawData
          exampleState).2.2 exampleState).activeTexture =
      exampleState.activeTexture ∧
    (execList (fun _ s => s)
        (renderDrawList exampleRenderer exampleIOView exampleDrawData
          exampleState).2.2 exampleState).currentProgram =
      exampleState.currentProgram ∧
    (execList (fun _ s => s)
        (renderDrawList exampleRenderer exampleIOView exampleDrawData
          exampleState).2.2 exampleState).textureBinding2D =
      exampleState.textureBinding2D ∧
    (execList (fun _ s => s)
        (renderDrawList exampleRenderer exampleIOView exampleDrawData
          exampleState).2.2 exampleState).arrayBufferBinding =
      exampleState.arrayBufferBinding ∧
    (execList (fun _ s => s)
        (renderDrawList exampleRenderer exampleIOView exampleDrawData
          exampleState).2.2 exampleState).elementArrayBufferBinding =
      exampleState.elementArrayBufferBinding ∧
    (execList (fun _ s => s)
        (renderDrawList exampleRenderer exampleIOView exampleDrawData
          exampleState).2.2 exampleState).vertexArrayBinding =
      exampleState.vertexArrayBinding ∧
    (execList (fun _ s => s)
        (renderDrawList exampleRenderer exampleIOView exampleDrawData
          exampleState).2.2 exampleState).blendSrcRgb =
      exampleState.blendSrcRgb ∧
    (execList (fun _ s => s)
        (renderDrawList exampleRenderer exampleIOView exampleDrawData
          exampleState).2.2 exampleState).blendDstRgb =
      exampleState.blendDstRgb ∧
    (execList (fun _ s => s)
        (renderDrawList exampleRenderer exampleIOView exampleDrawData
          exampleState).2.2 exampleState).blendSrcAlpha =
      exampleState.blendSrcAlpha ∧
    (execList (fun _ s => s)
        (renderDrawList exampleRenderer exampleIOView exampleDrawData
          exampleState).2.2 exampleState).blendDstAlpha =
      exampleState.blendDstAlpha ∧
    (execList (fun _ s => s)
        (renderDrawList exampleRenderer exampleIOView exampleDrawData
          exampleState).2.2 exampleState).blendEquationRgb =
      exampleState.blendEquationRgb ∧
    (execList (fun _ s => s)
        (renderDrawList exampleRenderer exampleIOView exampleDrawData
          exampleState).2.2 exampleState).blendEquationAlpha =
      exampleState.blendEquationAlpha ∧
    (execList (fun _ s => s)
        (renderDrawList exampleRenderer exampleIOView exampleDrawData
          exampleState).2.2 exampleState).viewport =
      exampleState.viewport ∧
    (execList (fun _ s => s)
        (renderDrawList exampleRenderer exampleIOView exampleDrawData
          exampleState).2.2 exampleState).scissorBox =
      exampleState.scissorBox ∧
    (execList (fun _ s => s)
        (renderDrawList exampleRenderer exampleIOView exampleDrawData
          exampleState).2.2 exampleState).blendEnabled =
      exampleState.blendEnabled ∧
    (execList (fun _ s => s)
        (renderDrawList exampleRenderer exampleIOView exampleDrawData
          exampleState).2.2 exampleState).cullFaceEnabled =
      exampleState.cullFaceEnabled ∧
    (execList (fun _ s => s)
        (renderDrawList exampleRenderer exampleIOView exampleDrawData
          exampleState).2.2 exampleState).depthTestEnabled =
      exampleState.depthTestEnabled ∧
    (execList (fun _ s => s)
        (renderDrawList exampleRenderer exampleIOView exampleDrawData
          exampleState).2.2 exampleState).scissorTestEnabled =
      exampleState.scissorTestEnabled) :=
  ⟨by norm_num [exampleIOView, qtrunc],
   C1_state_restored (fun _ s => s) exampleRenderer exampleIOView
     exampleDrawData exampleState
     (by norm_num [exampleIOView, qtrunc])
     (by norm_num [exampleIOView, qtrunc])⟩

end QtImGui
